import Mathlib

/-!
Verification development for the bego input-synthesis library (C++ sources under
src/ and include/). The definitions below are a shallow embedding of the C++
code: enums become inductives, methods of the class Bego become functions on a
Bego structure, C++ int arithmetic becomes Int with Int.tdiv for the truncating
division of C++, fallible operations (functions that throw InputError) return
Except. External OS collaborators (MapVirtualKeyEx, GetSystemMetrics,
GetCursorPos) are an explicit Env parameter. The injection sink SendInput is
external: an operation with result Except.ok batch means the code calls
send_input once with that ordered batch; Except.error means the exception
propagates before any send_input call, so nothing is dispatched.
-/

namespace BegoLib

/-- Direction enum from include/bego.h: press, release, or click (press then
release in one batch). -/
inductive Direction where
  | Click
  | Press
  | Release
deriving DecidableEq

/-- Button enum from include/bego.h: mouse buttons plus four scroll-direction
pseudo buttons. -/
inductive Button where
  | Left
  | Middle
  | Right
  | Back
  | Forward
  | ScrollUp
  | ScrollDown
  | ScrollLeft
  | ScrollRight
deriving DecidableEq

/-- Axis enum from include/bego.h. -/
inductive Axis where
  | Horizontal
  | Vertical
deriving DecidableEq

/-- Coordinate enum from include/bego.h: absolute screen coordinates or
relative deltas. -/
inductive Coordinate where
  | Abs
  | Rel
deriving DecidableEq

/-- The type tag of InputError from include/bego.h (the message string carried
by the C++ exception is dropped; only the type is observable to the claims). -/
inductive InputErrorType where
  | Simulate
  | InvalidInput
  | Mapping
deriving DecidableEq

/-- Key enum from include/bego.h (all 104 values, in declaration order). -/
inductive Key where
  | A | B | C | D | E | F | G | H | I | J | K | L | M
  | N | O | P | Q | R | S | T | U | V | W | X | Y | Z
  | Num0 | Num1 | Num2 | Num3 | Num4 | Num5 | Num6 | Num7 | Num8 | Num9
  | F1 | F2 | F3 | F4 | F5 | F6 | F7 | F8 | F9 | F10 | F11 | F12
  | F13 | F14 | F15 | F16 | F17 | F18 | F19 | F20 | F21 | F22 | F23 | F24
  | Return | Tab | Space | Backspace | Escape | Delete | CapsLock
  | Control | Alt | Shift | Super | RightControl | RightAlt | RightShift | RightSuper
  | Up | Down | Left | Right | Home | End | PageUp | PageDown | Insert
  | Numpad0 | Numpad1 | Numpad2 | Numpad3 | Numpad4
  | Numpad5 | Numpad6 | Numpad7 | Numpad8 | Numpad9
  | NumpadMultiply | NumpadAdd | NumpadSubtract | NumpadDivide | NumpadDecimal
  | PrintScreen | ScrollLock | Pause | Menu
  | Unicode
deriving DecidableEq

/-- EVENT_MARKER constant from include/bego.h line 149. -/
def EVENT_MARKER : Nat := 0x12345678

/-- Windows SDK constants used by the sources (values from Windows.h, an
external dependency of the repository). -/
def KEYEVENTF_EXTENDEDKEY : Nat := 0x0001

/-- Windows SDK constant. -/
def KEYEVENTF_KEYUP : Nat := 0x0002

/-- Windows SDK constant. -/
def KEYEVENTF_UNICODE : Nat := 0x0004

/-- Windows SDK constant. -/
def KEYEVENTF_SCANCODE : Nat := 0x0008

/-- Windows SDK constant. -/
def MOUSEEVENTF_MOVE : Nat := 0x0001

/-- Windows SDK constant. -/
def MOUSEEVENTF_LEFTDOWN : Nat := 0x0002

/-- Windows SDK constant. -/
def MOUSEEVENTF_LEFTUP : Nat := 0x0004

/-- Windows SDK constant. -/
def MOUSEEVENTF_RIGHTDOWN : Nat := 0x0008

/-- Windows SDK constant. -/
def MOUSEEVENTF_RIGHTUP : Nat := 0x0010

/-- Windows SDK constant. -/
def MOUSEEVENTF_MIDDLEDOWN : Nat := 0x0020

/-- Windows SDK constant. -/
def MOUSEEVENTF_MIDDLEUP : Nat := 0x0040

/-- Windows SDK constant. -/
def MOUSEEVENTF_XDOWN : Nat := 0x0080

/-- Windows SDK constant. -/
def MOUSEEVENTF_XUP : Nat := 0x0100

/-- Windows SDK constant. -/
def MOUSEEVENTF_WHEEL : Nat := 0x0800

/-- Windows SDK constant. -/
def MOUSEEVENTF_HWHEEL : Nat := 0x1000

/-- Windows SDK constant. -/
def MOUSEEVENTF_ABSOLUTE : Nat := 0x8000

/-- Windows SDK constant: one notch of a physical scroll wheel. -/
def WHEEL_DELTA : Int := 120

/-- Windows SDK constant: map a virtual key to a scan code (extended). -/
def MAPVK_VK_TO_VSC_EX : Nat := 4

/-- Windows SDK constant: map a scan code to a virtual key (extended). -/
def MAPVK_VSC_TO_VK_EX : Nat := 3

/-- One primitive event descriptor handed to the injection sink. Modelled from
the spec: the bodies of create_keybd_event and create_mouse_event are declared
in include/bego_win.h (lines 230 and 241) but their translation unit is not
under src/; per spec section 3 an EventDescriptor is either a key transition
(flags, native code, scan or payload, marker) or a mouse transition (flags,
payload, dx, dy, marker), so the two constructors are modelled as plain record
constructors of their argument lists. -/
inductive INPUT where
  | keybd (dwFlags : Nat) (wVk : Nat) (wScan : Nat) (dwExtraInfo : Nat)
  | mouse (dwFlags : Nat) (mouseData : Int) (dx : Int) (dy : Int) (dwExtraInfo : Nat)
deriving DecidableEq

/-- Constructor for keyboard event descriptors (include/bego_win.h line 241). -/
def create_keybd_event (flags : Nat) (vk : Nat) (scan : Nat) (dw_extra_info : Nat) : INPUT :=
  INPUT.keybd flags vk scan dw_extra_info

/-- Constructor for mouse event descriptors (include/bego_win.h line 230). -/
def create_mouse_event (flags : Nat) (data : Int) (dx : Int) (dy : Int) (dw_extra_info : Nat) : INPUT :=
  INPUT.mouse flags data dx dy dw_extra_info

/-- Settings class from include/bego.h lines 121 to 143. -/
structure Settings where
  windows_dw_extra_info : Nat
  release_keys_when_dropped : Bool
  windows_subject_to_mouse_speed_and_acceleration_level : Bool
deriving DecidableEq

/-- Default Settings constructor from src/settings.cpp. -/
def Settings.mkDefault : Settings :=
  { windows_dw_extra_info := EVENT_MARKER
    release_keys_when_dropped := true
    windows_subject_to_mouse_speed_and_acceleration_level := false }

/-- External OS collaborators consumed by the Bego methods: translate models
MapVirtualKeyEx for the active keyboard layout (src/bego_win.cpp
translate_key), screen_width and screen_height model GetSystemMetrics
(src/bego_mouse.cpp main_display), cursor models GetCursorPos
(src/bego_mouse.cpp location, none when the query fails). -/
structure Env where
  translate : Nat → Nat → Nat
  screen_width : Int
  screen_height : Int
  cursor : Option (Int × Int)

/-- The Bego class state: held bookkeeping vectors plus the three
configuration fields copied from Settings (include/bego_win.h lines 191
to 210). -/
structure Bego where
  held_keys : List Key
  held_scancodes : List Nat
  release_keys_when_dropped : Bool
  dw_extra_info : Nat
  windows_subject_to_mouse_speed_and_acceleration_level : Bool

/-- Constructor Bego::Bego from src/bego_win.cpp lines 28 to 35: dw_extra_info
is the conditional expression settings.windows_dw_extra_info if nonzero, else
EVENT_MARKER. -/
def Bego.ofSettings (settings : Settings) : Bego :=
  { held_keys := []
    held_scancodes := []
    release_keys_when_dropped := settings.release_keys_when_dropped
    dw_extra_info :=
      if settings.windows_dw_extra_info ≠ 0 then settings.windows_dw_extra_info else EVENT_MARKER
    windows_subject_to_mouse_speed_and_acceleration_level :=
      settings.windows_subject_to_mouse_speed_and_acceleration_level }

/-- key_to_vk from src/key_converter.cpp lines 34 to 95. The map covers every
Key value except Unicode, which yields 0 by convention; the Mapping throw at
line 94 is unreachable for the closed enum, so the function is total here. -/
def key_to_vk : Key → Nat
  | Key.A => 0x41 | Key.B => 0x42 | Key.C => 0x43 | Key.D => 0x44 | Key.E => 0x45
  | Key.F => 0x46 | Key.G => 0x47 | Key.H => 0x48 | Key.I => 0x49 | Key.J => 0x4A
  | Key.K => 0x4B | Key.L => 0x4C | Key.M => 0x4D | Key.N => 0x4E | Key.O => 0x4F
  | Key.P => 0x50 | Key.Q => 0x51 | Key.R => 0x52 | Key.S => 0x53 | Key.T => 0x54
  | Key.U => 0x55 | Key.V => 0x56 | Key.W => 0x57 | Key.X => 0x58 | Key.Y => 0x59
  | Key.Z => 0x5A
  | Key.Num0 => 0x30 | Key.Num1 => 0x31 | Key.Num2 => 0x32 | Key.Num3 => 0x33
  | Key.Num4 => 0x34 | Key.Num5 => 0x35 | Key.Num6 => 0x36 | Key.Num7 => 0x37
  | Key.Num8 => 0x38 | Key.Num9 => 0x39
  | Key.F1 => 0x70 | Key.F2 => 0x71 | Key.F3 => 0x72 | Key.F4 => 0x73
  | Key.F5 => 0x74 | Key.F6 => 0x75 | Key.F7 => 0x76 | Key.F8 => 0x77
  | Key.F9 => 0x78 | Key.F10 => 0x79 | Key.F11 => 0x7A | Key.F12 => 0x7B
  | Key.F13 => 0x7C | Key.F14 => 0x7D | Key.F15 => 0x7E | Key.F16 => 0x7F
  | Key.F17 => 0x80 | Key.F18 => 0x81 | Key.F19 => 0x82 | Key.F20 => 0x83
  | Key.F21 => 0x84 | Key.F22 => 0x85 | Key.F23 => 0x86 | Key.F24 => 0x87
  | Key.Return => 0x0D | Key.Tab => 0x09 | Key.Space => 0x20 | Key.Backspace => 0x08
  | Key.Escape => 0x1B | Key.Delete => 0x2E | Key.CapsLock => 0x14
  | Key.Control => 0x11 | Key.Alt => 0x12 | Key.Shift => 0x10 | Key.Super => 0x5B
  | Key.RightControl => 0xA3 | Key.RightAlt => 0xA5 | Key.RightShift => 0xA1
  | Key.RightSuper => 0x5C
  | Key.Up => 0x26 | Key.Down => 0x28 | Key.Left => 0x25 | Key.Right => 0x27
  | Key.Home => 0x24 | Key.End => 0x23 | Key.PageUp => 0x21 | Key.PageDown => 0x22
  | Key.Insert => 0x2D
  | Key.Numpad0 => 0x60 | Key.Numpad1 => 0x61 | Key.Numpad2 => 0x62
  | Key.Numpad3 => 0x63 | Key.Numpad4 => 0x64 | Key.Numpad5 => 0x65
  | Key.Numpad6 => 0x66 | Key.Numpad7 => 0x67 | Key.Numpad8 => 0x68
  | Key.Numpad9 => 0x69
  | Key.NumpadMultiply => 0x6A | Key.NumpadAdd => 0x6B | Key.NumpadSubtract => 0x6D
  | Key.NumpadDivide => 0x6F | Key.NumpadDecimal => 0x6E
  | Key.PrintScreen => 0x2C | Key.ScrollLock => 0x91 | Key.Pause => 0x13
  | Key.Menu => 0x5D
  | Key.Unicode => 0

/-- vk_to_key from src/key_converter.cpp lines 111 to 235: the reverse switch;
the default branch throws a Mapping error, modelled as none. -/
def vk_to_key : Nat → Option Key
  | 0x41 => some Key.A | 0x42 => some Key.B | 0x43 => some Key.C | 0x44 => some Key.D
  | 0x45 => some Key.E | 0x46 => some Key.F | 0x47 => some Key.G | 0x48 => some Key.H
  | 0x49 => some Key.I | 0x4A => some Key.J | 0x4B => some Key.K | 0x4C => some Key.L
  | 0x4D => some Key.M | 0x4E => some Key.N | 0x4F => some Key.O | 0x50 => some Key.P
  | 0x51 => some Key.Q | 0x52 => some Key.R | 0x53 => some Key.S | 0x54 => some Key.T
  | 0x55 => some Key.U | 0x56 => some Key.V | 0x57 => some Key.W | 0x58 => some Key.X
  | 0x59 => some Key.Y | 0x5A => some Key.Z
  | 0x30 => some Key.Num0 | 0x31 => some Key.Num1 | 0x32 => some Key.Num2
  | 0x33 => some Key.Num3 | 0x34 => some Key.Num4 | 0x35 => some Key.Num5
  | 0x36 => some Key.Num6 | 0x37 => some Key.Num7 | 0x38 => some Key.Num8
  | 0x39 => some Key.Num9
  | 0x70 => some Key.F1 | 0x71 => some Key.F2 | 0x72 => some Key.F3 | 0x73 => some Key.F4
  | 0x74 => some Key.F5 | 0x75 => some Key.F6 | 0x76 => some Key.F7 | 0x77 => some Key.F8
  | 0x78 => some Key.F9 | 0x79 => some Key.F10 | 0x7A => some Key.F11 | 0x7B => some Key.F12
  | 0x7C => some Key.F13 | 0x7D => some Key.F14 | 0x7E => some Key.F15 | 0x7F => some Key.F16
  | 0x80 => some Key.F17 | 0x81 => some Key.F18 | 0x82 => some Key.F19 | 0x83 => some Key.F20
  | 0x84 => some Key.F21 | 0x85 => some Key.F22 | 0x86 => some Key.F23 | 0x87 => some Key.F24
  | 0x0D => some Key.Return | 0x09 => some Key.Tab | 0x20 => some Key.Space
  | 0x08 => some Key.Backspace | 0x1B => some Key.Escape | 0x2E => some Key.Delete
  | 0x14 => some Key.CapsLock
  | 0x11 => some Key.Control | 0x12 => some Key.Alt | 0x10 => some Key.Shift
  | 0x5B => some Key.Super | 0xA3 => some Key.RightControl | 0xA5 => some Key.RightAlt
  | 0xA1 => some Key.RightShift | 0x5C => some Key.RightSuper
  | 0x26 => some Key.Up | 0x28 => some Key.Down | 0x25 => some Key.Left
  | 0x27 => some Key.Right | 0x24 => some Key.Home | 0x23 => some Key.End
  | 0x21 => some Key.PageUp | 0x22 => some Key.PageDown | 0x2D => some Key.Insert
  | 0x60 => some Key.Numpad0 | 0x61 => some Key.Numpad1 | 0x62 => some Key.Numpad2
  | 0x63 => some Key.Numpad3 | 0x64 => some Key.Numpad4 | 0x65 => some Key.Numpad5
  | 0x66 => some Key.Numpad6 | 0x67 => some Key.Numpad7 | 0x68 => some Key.Numpad8
  | 0x69 => some Key.Numpad9
  | 0x6A => some Key.NumpadMultiply | 0x6B => some Key.NumpadAdd
  | 0x6D => some Key.NumpadSubtract | 0x6F => some Key.NumpadDivide
  | 0x6E => some Key.NumpadDecimal
  | 0x2C => some Key.PrintScreen | 0x91 => some Key.ScrollLock | 0x13 => some Key.Pause
  | 0x5D => some Key.Menu
  | _ => none

/-- is_extended_key from src/bego_win.cpp lines 120 to 142: the fixed list of
virtual keys that need KEYEVENTF_EXTENDEDKEY. -/
def is_extended_key (vk : Nat) : Bool :=
  match vk with
  | 0xA5 => true
  | 0xA3 => true
  | 0x26 => true
  | 0x28 => true
  | 0x25 => true
  | 0x27 => true
  | 0x2D => true
  | 0x2E => true
  | 0x24 => true
  | 0x23 => true
  | 0x21 => true
  | 0x22 => true
  | 0x90 => true
  | 0x2C => true
  | 0x6F => true
  | _ => false

/-- translate_key from src/bego_win.cpp lines 94 to 104: delegates to
MapVirtualKeyEx on the active layout; a zero result only triggers a comment in
the source, so the value is returned as is. -/
def translate_key (env : Env) (input : Nat) (map_type : Nat) : Nat :=
  env.translate input map_type

/-- main_display from src/bego_mouse.cpp lines 205 to 214: throws Simulate when
either screen dimension is zero. -/
def main_display (env : Env) : Except InputErrorType (Int × Int) :=
  if env.screen_width = 0 ∨ env.screen_height = 0 then
    Except.error InputErrorType.Simulate
  else
    Except.ok (env.screen_width, env.screen_height)

/-- location from src/bego_mouse.cpp lines 225 to 233: throws Simulate when the
cursor query fails. -/
def location (env : Env) : Except InputErrorType (Int × Int) :=
  match env.cursor with
  | none => Except.error InputErrorType.Simulate
  | some p => Except.ok p

/-- queue_key from src/bego_win.cpp lines 159 to 190: resolve the virtual key,
translate it to a scan code through the layout service, set the extended flag,
and append a down event for Click or Press and an up event for Click or
Release, in that order. -/
def Bego.queue_key (b : Bego) (env : Env) (key : Key) (direction : Direction) : List INPUT :=
  let vk := key_to_vk key
  let scan := translate_key env vk MAPVK_VK_TO_VSC_EX
  let keyflags := if is_extended_key vk then KEYEVENTF_EXTENDEDKEY else 0
  (if direction = Direction.Click ∨ direction = Direction.Press then
    [create_keybd_event keyflags vk scan b.dw_extra_info]
  else []) ++
  (if direction = Direction.Click ∨ direction = Direction.Release then
    [create_keybd_event (keyflags ||| KEYEVENTF_KEYUP) vk scan b.dw_extra_info]
  else [])

/-- queue_char from src/bego_win.cpp lines 207 to 231. On Windows wchar_t is a
16 bit type, so callers always pass character values below 2 to the 16; the
surrogate branch reading the caller buffer is kept as written. buffer models
the uninitialized two-element std::array the caller hands in. -/
def Bego.queue_char (b : Bego) (character : Nat) (buffer : Nat × Nat) : List INPUT :=
  let utf16_high := if 0x10000 ≤ character then buffer.1 else character
  let utf16_low := if 0x10000 ≤ character then buffer.2 else 0
  [create_keybd_event KEYEVENTF_UNICODE 0 utf16_high b.dw_extra_info,
   create_keybd_event (KEYEVENTF_UNICODE ||| KEYEVENTF_KEYUP) 0 utf16_high b.dw_extra_info] ++
  (if utf16_low ≠ 0 then
    [create_keybd_event KEYEVENTF_UNICODE 0 utf16_low b.dw_extra_info,
     create_keybd_event (KEYEVENTF_UNICODE ||| KEYEVENTF_KEYUP) 0 utf16_low b.dw_extra_info]
  else [])

/-- Bego::key from src/bego_keyboard.cpp lines 101 to 126: queue the events,
send them, then update held_keys. Press appends with push_back; Release erases
every occurrence with the erase-remove idiom; Click leaves the list alone. The
result pairs the new state with the batch handed to send_input. -/
def Bego.key (b : Bego) (env : Env) (key : Key) (direction : Direction) : Bego × List INPUT :=
  let input := b.queue_key env key direction
  let b2 :=
    match direction with
    | Direction.Press => { b with held_keys := b.held_keys ++ [key] }
    | Direction.Release => { b with held_keys := b.held_keys.filter (fun x => decide (x ≠ key)) }
    | Direction.Click => b
  (b2, input)

/-- Bego::raw from src/bego_keyboard.cpp lines 144 to 187: translate the scan
code to a virtual key through the layout service, set KEYEVENTF_SCANCODE plus
the extended flag, queue down and up events per the direction, send, and update
held_scancodes the same way key updates held_keys. -/
def Bego.raw (b : Bego) (env : Env) (scan : Nat) (direction : Direction) : Bego × List INPUT :=
  let vk := translate_key env scan MAPVK_VSC_TO_VK_EX
  let keyflags := KEYEVENTF_SCANCODE ||| (if is_extended_key vk then KEYEVENTF_EXTENDEDKEY else 0)
  let input :=
    (if direction = Direction.Click ∨ direction = Direction.Press then
      [create_keybd_event keyflags vk scan b.dw_extra_info]
    else []) ++
    (if direction = Direction.Click ∨ direction = Direction.Release then
      [create_keybd_event (keyflags ||| KEYEVENTF_KEYUP) vk scan b.dw_extra_info]
    else [])
  let b2 :=
    match direction with
    | Direction.Press => { b with held_scancodes := b.held_scancodes ++ [scan] }
    | Direction.Release => { b with held_scancodes := b.held_scancodes.filter (fun x => decide (x ≠ scan)) }
    | Direction.Click => b
  (b2, input)

/-- Bego::held from src/bego_win.cpp lines 242 to 244. -/
def Bego.held (b : Bego) : List Key × List Nat :=
  (b.held_keys, b.held_scancodes)

/-- Bego::get_marker_value from src/bego_win.cpp lines 255 to 257. -/
def Bego.get_marker_value (b : Bego) : Nat :=
  b.dw_extra_info

/-- Models the cast wchar_t wc = static_cast(c) in Bego::text for one byte of a
std::string on Windows: char is signed, so bytes at and above 128 sign-extend
and then truncate to the 16 bit wchar_t. Defined for byte values below 256. -/
def wchar_of_byte (c : Nat) : Nat :=
  if c < 128 then c else c + 65280

/-- The per-character descriptor block of Bego::text (src/bego_keyboard.cpp
lines 59 to 81) for a non-null byte: newline and carriage return become a
Return click, tab becomes a Tab click, everything else goes through
queue_char on the widened character. -/
def Bego.charBlock (b : Bego) (env : Env) (buffer : Nat × Nat) (c : Nat) : List INPUT :=
  if c = 10 ∨ c = 13 then b.queue_key env Key.Return Direction.Click
  else if c = 9 then b.queue_key env Key.Tab Direction.Click
  else b.queue_char (wchar_of_byte c) buffer

/-- The loop of Bego::text over the remaining bytes: a null byte throws
InvalidInput (discarding the whole batch, since send_input runs only after the
loop); otherwise the per-character block is appended in order. -/
def Bego.text_loop (b : Bego) (env : Env) (buffer : Nat × Nat) : List Nat → Except InputErrorType (List INPUT)
  | [] => Except.ok []
  | c :: rest =>
    if c = 0 then Except.error InputErrorType.InvalidInput
    else
      match b.text_loop env buffer rest with
      | Except.error e => Except.error e
      | Except.ok tail => Except.ok (b.charBlock env buffer c ++ tail)

/-- Bego::text from src/bego_keyboard.cpp lines 49 to 85: empty input returns
with nothing to simulate; otherwise the loop builds one batch which is handed
to send_input as a whole on success. Except.ok batch means send_input(batch)
is called once; Except.error means the exception propagates before send_input,
so no descriptor is dispatched. -/
def Bego.text (b : Bego) (env : Env) (buffer : Nat × Nat) (s : List Nat) : Except InputErrorType (List INPUT) :=
  if s = [] then Except.ok []
  else b.text_loop env buffer s

/-- Bego::scroll from src/bego_mouse.cpp lines 127 to 142: horizontal passes
the sign through, vertical inverts it; payload is length times WHEEL_DELTA;
exactly one descriptor is sent. -/
def Bego.scroll (b : Bego) (length : Int) (axis : Axis) : List INPUT :=
  if axis = Axis.Horizontal then
    [create_mouse_event MOUSEEVENTF_HWHEEL (length * WHEEL_DELTA) 0 0 b.dw_extra_info]
  else
    [create_mouse_event MOUSEEVENTF_WHEEL (-length * WHEEL_DELTA) 0 0 b.dw_extra_info]

/-- Down-flag of the press switch in Bego::button (src/bego_mouse.cpp lines 50
to 74). The scroll pseudo buttons never reach this switch (they return early),
so their value here is irrelevant; the catch-all mirrors the XDOWN case shared
by Back and Forward. -/
def buttonDownFlag : Button → Nat
  | Button.Left => MOUSEEVENTF_LEFTDOWN
  | Button.Middle => MOUSEEVENTF_MIDDLEDOWN
  | Button.Right => MOUSEEVENTF_RIGHTDOWN
  | _ => MOUSEEVENTF_XDOWN

/-- Up-flag of the release switch in Bego::button (src/bego_mouse.cpp lines 83
to 105); same remark as for buttonDownFlag. -/
def buttonUpFlag : Button → Nat
  | Button.Left => MOUSEEVENTF_LEFTUP
  | Button.Middle => MOUSEEVENTF_MIDDLEUP
  | Button.Right => MOUSEEVENTF_RIGHTUP
  | _ => MOUSEEVENTF_XUP

/-- Bego::button from src/bego_mouse.cpp lines 35 to 111. The source tests the
direction first and switches on the button inside each phase; with the closed
enums the two orders agree, and here the button is split first so the early
returns of the four scroll pseudo buttons are explicit: when the press phase is
active they become a scroll call, and on Release they return before send_input
(no descriptor at all). Back and Forward carry button_no 1 and 2. The
InvalidInput default of the C++ switch is unreachable for the closed enum. -/
def Bego.button (b : Bego) (btn : Button) (direction : Direction) : List INPUT :=
  let button_no : Int := if btn = Button.Back then 1 else if btn = Button.Forward then 2 else 0
  match btn with
  | Button.ScrollUp =>
    if direction = Direction.Click ∨ direction = Direction.Press then b.scroll (-1) Axis.Vertical else []
  | Button.ScrollDown =>
    if direction = Direction.Click ∨ direction = Direction.Press then b.scroll 1 Axis.Vertical else []
  | Button.ScrollLeft =>
    if direction = Direction.Click ∨ direction = Direction.Press then b.scroll (-1) Axis.Horizontal else []
  | Button.ScrollRight =>
    if direction = Direction.Click ∨ direction = Direction.Press then b.scroll 1 Axis.Horizontal else []
  | btn =>
    (if direction = Direction.Click ∨ direction = Direction.Press then
      [create_mouse_event (buttonDownFlag btn) button_no 0 0 b.dw_extra_info]
    else []) ++
    (if direction = Direction.Click ∨ direction = Direction.Release then
      [create_mouse_event (buttonUpFlag btn) button_no 0 0 b.dw_extra_info]
    else [])

/-- The absolute scaling computed inline in Bego::move_mouse (src/bego_mouse.cpp
lines 171 to 177): w = dim - 1, then (v * 65535 + w / 2 * (v at least 0 ? 1 :
-1)) / w, all in C++ int arithmetic, so both divisions truncate toward zero
(Int.tdiv). -/
def scale_abs (v dim : Int) : Int :=
  ((v * 65535 + (dim - 1).tdiv 2 * (if 0 ≤ v then 1 else -1)).tdiv (dim - 1))

/-- The scaling formula exactly as the spec words it (spec section 4.2 and
claim C2): half_dim is dim / 2 rounded down, the divisor is dim - 1. Stated
from the spec, for comparison with scale_abs. -/
def scale_spec_claim (v dim : Int) : Int :=
  ((v * 65535 + dim.tdiv 2 * (if 0 ≤ v then 1 else -1)).tdiv (dim - 1))

/-- The spec formula with the half offset the code actually uses: half of
dim - 1 rounded down (the amended form of claim C2). -/
def scale_spec_amended (v dim : Int) : Int :=
  ((v * 65535 + (dim - 1).tdiv 2 * (if 0 ≤ v then 1 else -1)).tdiv (dim - 1))

/-- The absolute branch of Bego::move_mouse (src/bego_mouse.cpp lines 167 to
179 and 191 to 192): query the display, scale both coordinates into 0..65535,
and send one MOVE plus ABSOLUTE descriptor. -/
def Bego.move_mouse_abs (b : Bego) (env : Env) (x y : Int) : Except InputErrorType (List INPUT) :=
  match main_display env with
  | Except.error e => Except.error e
  | Except.ok (screen_width, screen_height) =>
    let dx := scale_abs x screen_width
    let dy := scale_abs y screen_height
    Except.ok [create_mouse_event (MOUSEEVENTF_MOVE ||| MOUSEEVENTF_ABSOLUTE) 0 dx dy b.dw_extra_info]

/-- Bego::move_mouse from src/bego_mouse.cpp lines 163 to 193. The relative
branch without acceleration re-expresses the move as an absolute move to the
current cursor position plus the delta, by a tail call into the absolute
branch (expanded here as move_mouse_abs, which is also the whole Abs case). -/
def Bego.move_mouse (b : Bego) (env : Env) (x y : Int) (coordinate : Coordinate) : Except InputErrorType (List INPUT) :=
  match coordinate with
  | Coordinate.Abs => b.move_mouse_abs env x y
  | Coordinate.Rel =>
    if b.windows_subject_to_mouse_speed_and_acceleration_level then
      Except.ok [create_mouse_event MOUSEEVENTF_MOVE 0 x y b.dw_extra_info]
    else
      match location env with
      | Except.error e => Except.error e
      | Except.ok (current_x, current_y) => b.move_mouse_abs env (current_x + x) (current_y + y)

/-- One release attempted by the destructor: a held Key or a held scan code. -/
inductive ReleaseAttempt where
  | key (k : Key)
  | scancode (sc : Nat)
deriving DecidableEq

/-- Bego::~Bego from src/bego_win.cpp lines 45 to 67: nothing happens unless
release_keys_when_dropped is set; otherwise every held key and then every held
scan code present at destructor entry gets one Release attempt via key or raw.
Each attempt is wrapped in try/catch, so a failing attempt is swallowed and
iteration continues; attemptFails records an arbitrary pattern of sink
failures and the result pairs each attempt with whether it failed, showing the
attempt sequence is the same for every failure pattern and no error escapes
the destructor. -/
def Bego.dtor (b : Bego) (attemptFails : ReleaseAttempt → Bool) : List (ReleaseAttempt × Bool) :=
  if b.release_keys_when_dropped = false then []
  else
    (b.held_keys.map ReleaseAttempt.key ++ b.held_scancodes.map ReleaseAttempt.scancode).map
      (fun a => (a, attemptFails a))

/-- A concrete environment for closed instances: a layout translation that
returns 0, a 1920 by 1080 display, cursor at (5, 7). -/
def env0 : Env :=
  { translate := fun _ _ => 0
    screen_width := 1920
    screen_height := 1080
    cursor := some (5, 7) }

/-- A concrete environment with a degenerate two-pixel display, for the C2
counterexample. -/
def env2 : Env :=
  { translate := fun _ _ => 0
    screen_width := 2
    screen_height := 2
    cursor := none }

/-- A Bego instance built from the default settings (marker EVENT_MARKER,
auto release on, acceleration bypass on). -/
def bego0 : Bego := Bego.ofSettings Settings.mkDefault

/-- A two-descriptor block that is a key-down immediately followed by the
matching key-up (same native code, scan and marker, KEYUP bit clear on the
down event and added on the up event). -/
def isDownUp2 (l : List INPUT) : Prop :=
  ∃ f v sc e, f &&& KEYEVENTF_KEYUP = 0 ∧
    l = [create_keybd_event f v sc e, create_keybd_event (f ||| KEYEVENTF_KEYUP) v sc e]

/-- A four-descriptor block made of two consecutive down-up pairs (the
surrogate-pair shape: high surrogate down, up, then low surrogate down, up). -/
def isDownUp4 (l : List INPUT) : Prop :=
  ∃ f v sc e f2 v2 sc2 e2, f &&& KEYEVENTF_KEYUP = 0 ∧ f2 &&& KEYEVENTF_KEYUP = 0 ∧
    l = [create_keybd_event f v sc e, create_keybd_event (f ||| KEYEVENTF_KEYUP) v sc e,
         create_keybd_event f2 v2 sc2 e2, create_keybd_event (f2 ||| KEYEVENTF_KEYUP) v2 sc2 e2]

/-- Claim C1, counterexample: the held bookkeeping is not duplicate-free. On a
fresh instance, two consecutive key(A, Press) calls leave held() reporting the
key A twice: Bego::key pushes unconditionally on Press, with no presence
check, so a Press for an identifier already held does not leave the collection
unchanged. -/
theorem held_duplicate_after_double_press :
    (((bego0.key env0 Key.A Direction.Press).1.key env0 Key.A Direction.Press).1.held).1 = [Key.A, Key.A] ∧
    ¬ List.Nodup (((bego0.key env0 Key.A Direction.Press).1.key env0 Key.A Direction.Press).1.held).1 :=
  ⟨rfl, by decide⟩

/-- Claim C1, amended: for every key(k, d) and raw(s, d) operation, Press
appends the identifier to the end of the corresponding held collection
unconditionally (so repeated Presses of a held identifier create duplicate
entries), Release removes every occurrence of the identifier, Click leaves
both collections unchanged, and each operation touches only its own
collection. -/
theorem held_update_per_direction (b : Bego) (env : Env) (k : Key) (sc : Nat) (d : Direction) :
    ((b.key env k d).1.held_keys =
      (match d with
       | Direction.Press => b.held_keys ++ [k]
       | Direction.Release => b.held_keys.filter (fun x => decide (x ≠ k))
       | Direction.Click => b.held_keys) ∧
     (b.key env k d).1.held_scancodes = b.held_scancodes) ∧
    ((b.raw env sc d).1.held_scancodes =
      (match d with
       | Direction.Press => b.held_scancodes ++ [sc]
       | Direction.Release => b.held_scancodes.filter (fun x => decide (x ≠ sc))
       | Direction.Click => b.held_scancodes) ∧
     (b.raw env sc d).1.held_keys = b.held_keys) := by
  cases d <;> simp [Bego.key, Bego.raw]

/-- Claim C2, counterexample: with display dimension 2 and coordinate 1 the
code produces the normalized coordinate 65535, while the formula of the claim
(half_dim equal to dim over 2 rounded down) yields 65536, so the claimed
formula does not match the code for every dimension of at least 2. -/
theorem scale_claim_formula_mismatch_at_dim2 :
    scale_abs 1 2 ≠ scale_spec_claim 1 2 ∧
    bego0.move_mouse env2 1 1 Coordinate.Abs =
      Except.ok [create_mouse_event (MOUSEEVENTF_MOVE ||| MOUSEEVENTF_ABSOLUTE) 0 65535 65535 EVENT_MARKER] ∧
    scale_spec_claim 1 2 = 65536 :=
  ⟨by decide, rfl, rfl⟩

/-- Claim C2, amended: for every absolute move with both display dimensions at
least 2, each normalized coordinate equals exactly (v * 65535 + half * sign v)
divided by (dim - 1) in truncating integer arithmetic, where half is
(dim - 1) / 2 rounded down (half of the reduced dimension dim - 1, not of dim)
and sign v is 1 for v at least 0 and -1 otherwise. -/
theorem move_mouse_abs_amended_formula (b : Bego) (env : Env) (x y : Int)
    (hw : 2 ≤ env.screen_width) (hh : 2 ≤ env.screen_height) :
    b.move_mouse env x y Coordinate.Abs =
      Except.ok [create_mouse_event (MOUSEEVENTF_MOVE ||| MOUSEEVENTF_ABSOLUTE) 0
        (scale_spec_amended x env.screen_width) (scale_spec_amended y env.screen_height) b.dw_extra_info] := by
  have hno : ¬ (env.screen_width = 0 ∨ env.screen_height = 0) := by omega
  simp [Bego.move_mouse, Bego.move_mouse_abs, main_display, hno, scale_spec_amended, scale_abs]

/-- Witness for the amended C2 theorem at a 1920 by 1080 display with a
negative x, exercising the sign term. -/
theorem move_mouse_abs_amended_formula_witness :
    bego0.move_mouse env0 (-50) 100 Coordinate.Abs =
      Except.ok [create_mouse_event (MOUSEEVENTF_MOVE ||| MOUSEEVENTF_ABSOLUTE) 0
        (scale_spec_amended (-50) env0.screen_width) (scale_spec_amended 100 env0.screen_height) bego0.dw_extra_info] :=
  move_mouse_abs_amended_formula bego0 env0 (-50) 100 (by decide) (by decide)

/-- Shared bound for the absolute scaling: for dimensions of at least 2 and a
coordinate within 0 to dim - 1, the scaled value stays within 0 to 65535. -/
theorem scale_abs_bounds (v dim : Int) (hdim : 2 ≤ dim) (hv0 : 0 ≤ v) (hv : v ≤ dim - 1) :
    0 ≤ scale_abs v dim ∧ scale_abs v dim ≤ 65535 := by
  have hsign : (if (0:Int) ≤ v then (1:Int) else -1) = 1 := if_pos hv0
  have htd : (dim - 1).tdiv 2 = (dim - 1) / 2 := Int.tdiv_eq_ediv (by omega) (by norm_num)
  have hhalf0 : 0 ≤ (dim - 1) / 2 := Int.ediv_nonneg (by omega) (by norm_num)
  have hhalf : (dim - 1) / 2 < dim - 1 := by
    rw [Int.ediv_lt_iff_lt_mul (by norm_num : (0:Int) < 2)]
    omega
  have hnum0 : 0 ≤ v * 65535 + (dim - 1) / 2 := by positivity
  unfold scale_abs
  rw [hsign, mul_one, htd]
  constructor
  · exact Int.tdiv_nonneg hnum0 (by omega)
  · rw [Int.tdiv_eq_ediv hnum0 (by omega)]
    have hlt : (v * 65535 + (dim - 1) / 2) / (dim - 1) < 65536 := by
      rw [Int.ediv_lt_iff_lt_mul (by omega : (0:Int) < dim - 1)]
      nlinarith
    omega

/-- Claim C3: for display dimensions of at least 2 and coordinates within
0 to dim - 1, the absolute move produces exactly one move descriptor whose
normalized coordinates lie within 0 to 65535; and the normalization is a pure
function of its inputs, so running it twice on identical inputs yields
identical outputs. -/
theorem move_mouse_abs_range_and_deterministic (b : Bego) (env : Env) (x y : Int)
    (hw : 2 ≤ env.screen_width) (hh : 2 ≤ env.screen_height)
    (hx0 : 0 ≤ x) (hx : x ≤ env.screen_width - 1)
    (hy0 : 0 ≤ y) (hy : y ≤ env.screen_height - 1) :
    b.move_mouse env x y Coordinate.Abs =
      Except.ok [create_mouse_event (MOUSEEVENTF_MOVE ||| MOUSEEVENTF_ABSOLUTE) 0
        (scale_abs x env.screen_width) (scale_abs y env.screen_height) b.dw_extra_info] ∧
    0 ≤ scale_abs x env.screen_width ∧ scale_abs x env.screen_width ≤ 65535 ∧
    0 ≤ scale_abs y env.screen_height ∧ scale_abs y env.screen_height ≤ 65535 ∧
    b.move_mouse env x y Coordinate.Abs = b.move_mouse env x y Coordinate.Abs := by
  have hno : ¬ (env.screen_width = 0 ∨ env.screen_height = 0) := by omega
  have hbx := scale_abs_bounds x env.screen_width hw hx0 hx
  have hby := scale_abs_bounds y env.screen_height hh hy0 hy
  refine ⟨?_, hbx.1, hbx.2, hby.1, hby.2, rfl⟩
  simp [Bego.move_mouse, Bego.move_mouse_abs, main_display, hno]

/-- Witness for C3 at a 1920 by 1080 display with coordinates (100, 200). -/
theorem move_mouse_abs_range_and_deterministic_witness :
    bego0.move_mouse env0 100 200 Coordinate.Abs =
      Except.ok [create_mouse_event (MOUSEEVENTF_MOVE ||| MOUSEEVENTF_ABSOLUTE) 0
        (scale_abs 100 env0.screen_width) (scale_abs 200 env0.screen_height) bego0.dw_extra_info] ∧
    0 ≤ scale_abs 100 env0.screen_width ∧ scale_abs 100 env0.screen_width ≤ 65535 ∧
    0 ≤ scale_abs 200 env0.screen_height ∧ scale_abs 200 env0.screen_height ≤ 65535 ∧
    bego0.move_mouse env0 100 200 Coordinate.Abs = bego0.move_mouse env0 100 200 Coordinate.Abs :=
  move_mouse_abs_range_and_deterministic bego0 env0 100 200
    (by decide) (by decide) (by decide) (by decide) (by decide) (by decide)

/-- Claim C4: for every Key value other than the Unicode sentinel (which maps
to the native code 0 by convention), converting to the Windows virtual key and
back returns the same Key. -/
theorem vk_to_key_key_to_vk_roundtrip (k : Key) (h : k ≠ Key.Unicode) :
    vk_to_key (key_to_vk k) = some k := by
  cases k <;> first | rfl | exact absurd rfl h

/-- Witness for C4 at Key.A. -/
theorem vk_to_key_key_to_vk_roundtrip_witness :
    Key.A ≠ Key.Unicode ∧ vk_to_key (key_to_vk Key.A) = some Key.A :=
  ⟨by decide, vk_to_key_key_to_vk_roundtrip Key.A (by decide)⟩

/-- Helper for C5: the text loop fails with InvalidInput as soon as the
remaining bytes contain a null byte. -/
theorem text_loop_contains_null (b : Bego) (env : Env) (buffer : Nat × Nat) :
    ∀ s : List Nat, 0 ∈ s → b.text_loop env buffer s = Except.error InputErrorType.InvalidInput := by
  intro s hs
  induction s with
  | nil => cases hs
  | cons c rest ih =>
    by_cases hc : c = 0
    · simp [Bego.text_loop, hc]
    · rcases List.mem_cons.mp hs with h0 | h0
      · exact absurd h0.symm hc
      · simp [Bego.text_loop, hc, ih h0]

/-- Claim C5: for every input string containing a null byte, text fails with
an InputError of type InvalidInput; since send_input runs only after the whole
loop, the batch built so far is discarded and no descriptor is dispatched
(Except.error carries no batch). -/
theorem text_null_byte_invalid_input (b : Bego) (env : Env) (buffer : Nat × Nat)
    (s : List Nat) (h : 0 ∈ s) :
    b.text env buffer s = Except.error InputErrorType.InvalidInput := by
  have hne : s ≠ [] := by rintro rfl; cases h
  rw [Bego.text, if_neg hne]
  exact text_loop_contains_null b env buffer s h

/-- Witness for C5 on the two-byte input 65, 0. -/
theorem text_null_byte_invalid_input_witness :
    0 ∈ [65, 0] ∧ bego0.text env0 (0, 0) [65, 0] = Except.error InputErrorType.InvalidInput :=
  ⟨by decide, text_null_byte_invalid_input bego0 env0 (0, 0) [65, 0] (by decide)⟩

/-- Helper for C6: without a null byte the text loop succeeds and the batch is
the in-order concatenation of the per-character blocks. -/
theorem text_loop_no_null_ok (b : Bego) (env : Env) (buffer : Nat × Nat) :
    ∀ s : List Nat, (∀ c ∈ s, c ≠ 0) →
      b.text_loop env buffer s = Except.ok (s.flatMap (b.charBlock env buffer)) := by
  intro s hs
  induction s with
  | nil => rfl
  | cons c rest ih =>
    have hc : c ≠ 0 := hs c (List.mem_cons_self c rest)
    have hrest : ∀ x ∈ rest, x ≠ 0 := fun x hx => hs x (List.mem_cons_of_mem c hx)
    simp [Bego.text_loop, hc, ih hrest]

/-- Helper for C6: every per-character block of text is a key-down immediately
followed by the matching key-up (two descriptors) or a surrogate-pair shape
(four descriptors); for byte input the two-descriptor case always applies,
including the special-cased newline, carriage return and tab. -/
theorem charBlock_down_up_shape (b : Bego) (env : Env) (buffer : Nat × Nat) (c : Nat)
    (hlt : c < 256) (hc : c ≠ 0) :
    isDownUp2 (b.charBlock env buffer c) ∨ isDownUp4 (b.charBlock env buffer c) := by
  left
  by_cases h10 : c = 10
  · exact ⟨0, key_to_vk Key.Return, translate_key env (key_to_vk Key.Return) MAPVK_VK_TO_VSC_EX,
      b.dw_extra_info, by decide,
      by simp [Bego.charBlock, h10, Bego.queue_key, key_to_vk, is_extended_key]⟩
  by_cases h13 : c = 13
  · exact ⟨0, key_to_vk Key.Return, translate_key env (key_to_vk Key.Return) MAPVK_VK_TO_VSC_EX,
      b.dw_extra_info, by decide,
      by simp [Bego.charBlock, h10, h13, Bego.queue_key, key_to_vk, is_extended_key]⟩
  by_cases h9 : c = 9
  · exact ⟨0, key_to_vk Key.Tab, translate_key env (key_to_vk Key.Tab) MAPVK_VK_TO_VSC_EX,
      b.dw_extra_info, by decide,
      by simp [Bego.charBlock, h10, h13, h9, Bego.queue_key, key_to_vk, is_extended_key]⟩
  · have hwc : ¬ (0x10000 ≤ wchar_of_byte c) := by
      unfold wchar_of_byte
      split <;> omega
    refine ⟨KEYEVENTF_UNICODE, 0, wchar_of_byte c, b.dw_extra_info, by decide, ?_⟩
    simp [Bego.charBlock, h10, h13, h9, Bego.queue_char, if_neg hwc]

/-- Claim C6: for every byte string without a null byte, text succeeds and the
dispatched batch is the concatenation, in character order, of per-character
blocks, where every block is either exactly two descriptors (a down
immediately followed by the matching up, covering single code units and the
special-cased newline, carriage return and tab clicks) or exactly four
descriptors (the surrogate-pair shape: high-surrogate down and up then
low-surrogate down and up). -/
theorem text_blocks_in_order (b : Bego) (env : Env) (buffer : Nat × Nat) (s : List Nat)
    (hlt : ∀ c ∈ s, c < 256) (hnz : ∀ c ∈ s, c ≠ 0) :
    b.text env buffer s = Except.ok (s.flatMap (b.charBlock env buffer)) ∧
    ∀ c ∈ s, isDownUp2 (b.charBlock env buffer c) ∨ isDownUp4 (b.charBlock env buffer c) := by
  constructor
  · rcases eq_or_ne s [] with rfl | hne
    · rfl
    · rw [Bego.text, if_neg hne]
      exact text_loop_no_null_ok b env buffer s hnz
  · exact fun c hc => charBlock_down_up_shape b env buffer c (hlt c hc) (hnz c hc)

/-- Witness for C6 on the two-byte input 104, 10 (a letter then a newline). -/
theorem text_blocks_in_order_witness :
    bego0.text env0 (0, 0) [104, 10] = Except.ok ([104, 10].flatMap (bego0.charBlock env0 (0, 0))) ∧
    ∀ c ∈ [104, 10], isDownUp2 (bego0.charBlock env0 (0, 0) c) ∨ isDownUp4 (bego0.charBlock env0 (0, 0) c) :=
  text_blocks_in_order bego0 env0 (0, 0) [104, 10] (by decide) (by decide)

/-- Claim C7: clicking the ScrollUp pseudo button is the very scroll action
scroll(-1, Vertical), which dispatches exactly one vertical-wheel descriptor
(payload 120, no button down or up flag); and releasing any of the four scroll
pseudo buttons returns before send_input, dispatching nothing at all. -/
theorem button_scrollup_click_is_scroll (b : Bego) :
    b.button Button.ScrollUp Direction.Click = b.scroll (-1) Axis.Vertical ∧
    b.scroll (-1) Axis.Vertical = [create_mouse_event MOUSEEVENTF_WHEEL 120 0 0 b.dw_extra_info] ∧
    b.button Button.ScrollUp Direction.Release = [] ∧
    b.button Button.ScrollDown Direction.Release = [] ∧
    b.button Button.ScrollLeft Direction.Release = [] ∧
    b.button Button.ScrollRight Direction.Release = [] :=
  ⟨rfl, rfl, rfl, rfl, rfl, rfl⟩

/-- Claim C8: with acceleration bypass enabled (flag false) and current
pointer position (cx, cy), a relative move by (x, y) produces exactly the
same result as an absolute move to (cx + x, cy + y). -/
theorem move_rel_bypass_equals_abs (b : Bego) (env : Env) (x y cx cy : Int)
    (hacc : b.windows_subject_to_mouse_speed_and_acceleration_level = false)
    (hcur : env.cursor = some (cx, cy)) :
    b.move_mouse env x y Coordinate.Rel = b.move_mouse env (cx + x) (cy + y) Coordinate.Abs := by
  simp [Bego.move_mouse, location, hacc, hcur]

/-- Witness for C8 with the cursor at (5, 7) and delta (1, 2). -/
theorem move_rel_bypass_equals_abs_witness :
    bego0.move_mouse env0 1 2 Coordinate.Rel = bego0.move_mouse env0 (5 + 1) (7 + 2) Coordinate.Abs :=
  move_rel_bypass_equals_abs bego0 env0 1 2 5 7 rfl rfl

/-- Claim C9: after key(A, Press) on a fresh instance (default settings, so
release_keys_when_dropped is enabled), held() reports exactly Key.A held and
no held scan codes, and the destructor attempts exactly one Release, for
Key.A, whatever pattern of per-attempt failures the sink produces (each
attempt is wrapped in try/catch, so failures are swallowed and none
propagates: the attempt list is the same for every failure pattern and the
destructor has no error outcome). -/
theorem press_a_then_teardown :
    (bego0.key env0 Key.A Direction.Press).1.held = ([Key.A], []) ∧
    ∀ attemptFails : ReleaseAttempt → Bool,
      ((bego0.key env0 Key.A Direction.Press).1.dtor attemptFails).map Prod.fst = [ReleaseAttempt.key Key.A] :=
  ⟨rfl, fun _ => rfl⟩

/-- Claim C10: a Settings value with windows_dw_extra_info 0 yields an
instance whose marker value is the sentinel EVENT_MARKER, and for every
Settings value the marker is never 0, so a caller cannot configure a zero
marker tag. -/
theorem marker_value_never_zero (s : Settings) :
    (s.windows_dw_extra_info = 0 → (Bego.ofSettings s).get_marker_value = EVENT_MARKER) ∧
    (Bego.ofSettings s).get_marker_value ≠ 0 := by
  constructor
  · intro h
    simp [Bego.ofSettings, Bego.get_marker_value, h]
  · by_cases h : s.windows_dw_extra_info = 0 <;>
      simp [Bego.ofSettings, Bego.get_marker_value, h, EVENT_MARKER]

/-- Witness for C10 at the Settings value with a zero marker field. -/
theorem marker_value_never_zero_witness :
    (Bego.ofSettings ⟨0, true, false⟩).get_marker_value = EVENT_MARKER ∧
    (Bego.ofSettings ⟨0, true, false⟩).get_marker_value ≠ 0 :=
  ⟨(marker_value_never_zero ⟨0, true, false⟩).1 rfl, (marker_value_never_zero ⟨0, true, false⟩).2⟩

end BegoLib
